import Mathlib

/-!
Shallow embedding of the snakey game (src/main.cpp): the grid data model,
the `Snake` simulation, the `Food` cell, the `KeyBindings` table and the
`Game` state machine with its per-state frame-update routines.  Rendering
and raw input polling are outside the core: per-frame input facts (which
keys are down/pressed, which UI rectangle the mouse is over, the value a
slider drag resolves to, the cell a food respawn samples) enter as an
explicit `Frame` record, and the wall clock enters as an integer
millisecond timestamp.
-/

namespace Snakey

/-- `GRID_WIDTH` from main.cpp (800 / 20). -/
def GRID_WIDTH : Int := 40

/-- `GRID_HEIGHT` from main.cpp (600 / 20). -/
def GRID_HEIGHT : Int := 30

/-- `struct Point { int x; int y; }`. -/
@[ext]
structure Point where
  x : Int
  y : Int
deriving DecidableEq, Repr

/-- `enum class Direction`. -/
inductive Direction where
  | Up
  | Down
  | Left
  | Right
deriving DecidableEq, Repr

/-- The one-grid-unit step the `switch (current_direction)` in
`Snake::update` applies to the head cell. -/
def Direction.apply (d : Direction) (p : Point) : Point :=
  match d with
  | .Up => { p with y := p.y - 1 }
  | .Down => { p with y := p.y + 1 }
  | .Left => { p with x := p.x - 1 }
  | .Right => { p with x := p.x + 1 }

/-- The exact opposite of a direction (Up↔Down, Left↔Right). -/
def Direction.opposite (d : Direction) : Direction :=
  match d with
  | .Up => .Down
  | .Down => .Up
  | .Left => .Right
  | .Right => .Left

/-- `class Snake`: segment list (head first), current heading, pending-growth
flag. -/
structure Snake where
  segments : List Point
  current_direction : Direction
  grow_snake : Bool
deriving DecidableEq, Repr

/-- `Snake::Snake(int init_length)`: heading Right, growth flag clear,
segments `(init_x - i, init_y)` for `i = 0 .. init_length - 1` where
`init_x = GRID_WIDTH / 2`, `init_y = GRID_HEIGHT / 2`.  A non-positive
`init_length` runs the loop zero times. -/
def Snake.init (init_length : Int) : Snake :=
  { segments := (List.range init_length.toNat).map
      (fun i : Nat => { x := GRID_WIDTH / 2 - (i : Int), y := GRID_HEIGHT / 2 }),
    current_direction := Direction.Right,
    grow_snake := false }

/-- `Snake::get_head`: `segments.front()`.  `front()` on an empty vector is
undefined in C++; the embedding returns a junk cell there, and every theorem
that inspects the head carries a non-emptiness hypothesis. -/
def Snake.get_head (s : Snake) : Point :=
  s.segments.headD { x := 0, y := 0 }

/-- `Snake::update`: compute the new head from the heading, insert it at the
front, then pop the tail unless growth is pending (in which case clear the
flag). -/
def Snake.update (s : Snake) : Snake :=
  let new_head := s.current_direction.apply s.get_head
  let segs := new_head :: s.segments
  if !s.grow_snake then
    { s with segments := segs.dropLast }
  else
    { s with segments := segs, grow_snake := false }

/-- `Snake::set_head`: `segments.front() = new_head` (overwrite index 0). -/
def Snake.set_head (s : Snake) (new_head : Point) : Snake :=
  { s with segments := s.segments.set 0 new_head }

/-- `Snake::set_direction`: ignore the request when it is the exact opposite
of the current heading, otherwise adopt it. -/
def Snake.set_direction (s : Snake) (new_direction : Direction) : Snake :=
  if (s.current_direction = Direction.Up ∧ new_direction = Direction.Down) ∨
     (s.current_direction = Direction.Down ∧ new_direction = Direction.Up) ∨
     (s.current_direction = Direction.Left ∧ new_direction = Direction.Right) ∨
     (s.current_direction = Direction.Right ∧ new_direction = Direction.Left) then
    s
  else
    { s with current_direction := new_direction }

/-- `Snake::grow`: set the pending-growth flag. -/
def Snake.grow (s : Snake) : Snake :=
  { s with grow_snake := true }

/-- `Snake::has_self_collision`: the loop over indices `1 .. size-1`
comparing each segment's coordinates against the head. -/
def Snake.has_self_collision (s : Snake) : Bool :=
  let head := s.get_head
  s.segments.tail.any (fun seg => seg.x == head.x && seg.y == head.y)

/-- `Snake::get_length`: `static_cast<int>(segments.size())`. -/
def Snake.get_length (s : Snake) : Int :=
  (s.segments.length : Int)

/-- raylib key code `KEY_ESCAPE`. -/
def KEY_ESCAPE : Int := 256

/-- raylib key code `KEY_UP`. -/
def KEY_UP : Int := 265

/-- raylib key code `KEY_DOWN`. -/
def KEY_DOWN : Int := 264

/-- raylib key code `KEY_LEFT`. -/
def KEY_LEFT : Int := 263

/-- raylib key code `KEY_RIGHT`. -/
def KEY_RIGHT : Int := 262

/-- raylib key code `KEY_W`. -/
def KEY_W : Int := 87

/-- raylib key code `KEY_A`. -/
def KEY_A : Int := 65

/-- raylib key code `KEY_S`. -/
def KEY_S : Int := 83

/-- raylib key code `KEY_D`. -/
def KEY_D : Int := 68

/-- `struct KeyBindings`: one key-code list per logical action. -/
structure KeyBindings where
  pause : List Int
  resume : List Int
  up : List Int
  down : List Int
  left : List Int
  right : List Int
deriving DecidableEq, Repr

/-- `KeyBindings::KeyBindings()`: the default bindings. -/
def KeyBindings.init : KeyBindings :=
  { pause := [KEY_ESCAPE],
    resume := [KEY_ESCAPE],
    up := [KEY_UP, KEY_W],
    down := [KEY_DOWN, KEY_S],
    left := [KEY_LEFT, KEY_A],
    right := [KEY_RIGHT, KEY_D] }

/-- `KeyBindings` rebinding: the `switch (current_edit_action)` in
`Game::update_keybinds` replaces the action's whole list with the single
observed key; an index outside `0..5` changes nothing. -/
def KeyBindings.rebind (kb : KeyBindings) (action : Int) (new_key : Int) : KeyBindings :=
  if action = 0 then { kb with pause := [new_key] }
  else if action = 1 then { kb with resume := [new_key] }
  else if action = 2 then { kb with up := [new_key] }
  else if action = 3 then { kb with down := [new_key] }
  else if action = 4 then { kb with left := [new_key] }
  else if action = 5 then { kb with right := [new_key] }
  else kb

/-- `enum class GameState`. -/
inductive GameState where
  | StartMenu
  | Settings
  | Keybinds
  | Countdown
  | Playing
  | Pause
  | ConfirmRestart
  | ConfirmMainMenu
  | GameOver
deriving DecidableEq, Repr

/-- The per-frame external facts consumed by one `Game::update` call:
the steady clock reading in milliseconds, raw keyboard facts, mouse-button
facts, the hit-test of the mouse position against each UI rectangle of the
active screen (pre-resolved booleans, per the interface boundary), the
integer each slider drag resolves to before clamping (`1 + int(pos*9.0f)`
resp. `50 + int(pos*450.0f)`), the keybind row index the mouse is inside
(`-1` when none), and the cell the next `Food::respawn` call would sample
from its uniform random engine. -/
structure Frame where
  now : Int
  keyDown : Int → Bool
  keyPressed : Int → Bool
  pressedKey : Int
  mousePressed : Bool
  mouseDown : Bool
  hitPlay : Bool
  hitSettings : Bool
  hitQuit : Bool
  hitLengthSlider : Bool
  hitTickSlider : Bool
  hitWrapBox : Bool
  hitKeybinds : Bool
  hitBack : Bool
  lengthSliderValue : Int
  tickSliderValue : Int
  keybindRow : Int
  hitResume : Bool
  hitRestart : Bool
  hitMainMenu : Bool
  hitYes : Bool
  hitNo : Bool
  newFood : Point

/-- `Game::is_action_down`: some bound key of the action is held. -/
def is_action_down (f : Frame) (keys : List Int) : Bool :=
  keys.any f.keyDown

/-- `Game::is_action_pressed`: some bound key of the action was newly
pressed this frame. -/
def is_action_pressed (f : Frame) (keys : List Int) : Bool :=
  keys.any f.keyPressed

/-- `std::clamp` over `int`. -/
def clampInt (v lo hi : Int) : Int :=
  if v < lo then lo else if hi < v then hi else v

/-- The mutable fields of `class Game` that belong to the core (window and
render-texture handles are presentation state and are omitted). -/
@[ext]
structure Game where
  app_state : GameState
  previous_state : GameState
  initial_snake_length : Int
  tick_rate_ms : Int
  wrapping_enabled : Bool
  best_length : Int
  countdown_duration_ms : Int
  countdown_start_time : Int
  snake : Snake
  food : Point
  last_move_time : Int
  key_bindings : KeyBindings
  current_edit_action : Int
deriving DecidableEq, Repr

/-- `Game::Game()`: the constructor's member-init list.  `now0` is the
`steady_clock::now()` reading taken for `countdown_start_time`; `food0` is
the cell the `Food()` member's construction-time `respawn()` samples;
`last_move_time` is value-initialized (the clock epoch, modelled as 0). -/
def Game.init (now0 : Int) (food0 : Point) : Game :=
  { app_state := GameState.StartMenu,
    previous_state := GameState.StartMenu,
    initial_snake_length := 3,
    tick_rate_ms := 100,
    wrapping_enabled := true,
    best_length := 0,
    countdown_duration_ms := 3000,
    countdown_start_time := now0,
    snake := Snake.init 3,
    food := food0,
    last_move_time := 0,
    key_bindings := KeyBindings.init,
    current_edit_action := -1 }

/-- `Game::game_over`: fold the final length into the best-length
high-water mark and enter GameOver. -/
def Game.game_over (g : Game) : Game :=
  { g with best_length := max g.best_length g.snake.get_length,
           app_state := GameState.GameOver }

/-- `Game::update_start_menu`.  The quit branch closes the window (an
external effect); the core state is unchanged by it. -/
def Game.update_start_menu (g : Game) (f : Frame) : Game :=
  if f.mousePressed then
    if f.hitPlay then
      { g with countdown_start_time := f.now, app_state := GameState.Countdown }
    else if f.hitSettings then
      { g with previous_state := GameState.StartMenu, app_state := GameState.Settings }
    else g
  else g

/-- `Game::update_settings`: slider writes happen while the button is held
(clamped to the valid range), the checkbox toggle and the two button
activations happen on a fresh press; the three press-gated tests are
independent `if`s, so a later one can overwrite an earlier one's write. -/
def Game.update_settings (g : Game) (f : Frame) : Game :=
  let g1 :=
    if f.mouseDown then
      let ga :=
        if f.hitLengthSlider then
          { g with initial_snake_length := clampInt f.lengthSliderValue 1 10 }
        else g
      if f.hitTickSlider then
        { ga with tick_rate_ms := clampInt f.tickSliderValue 50 500 }
      else ga
    else g
  if f.mousePressed then
    let g2 :=
      if f.hitWrapBox then { g1 with wrapping_enabled := !g1.wrapping_enabled } else g1
    let g3 :=
      if f.hitKeybinds then { g2 with app_state := GameState.Keybinds } else g2
    if f.hitBack then { g3 with app_state := g3.previous_state } else g3
  else g1

/-- `Game::update_keybinds`: a press inside a row arms editing for that
action, a press on Back returns to Settings, and while editing any observed
physical key replaces that action's binding and disarms editing. -/
def Game.update_keybinds (g : Game) (f : Frame) : Game :=
  let g1 :=
    if f.mousePressed then
      let ga :=
        if 0 ≤ f.keybindRow ∧ f.keybindRow < 6 then
          { g with current_edit_action := f.keybindRow }
        else g
      if f.hitBack then { ga with app_state := GameState.Settings } else ga
    else g
  if g1.current_edit_action ≠ -1 then
    if f.pressedKey ≠ 0 then
      { g1 with
          key_bindings := g1.key_bindings.rebind g1.current_edit_action f.pressedKey,
          current_edit_action := -1 }
    else g1
  else g1

/-- `Game::update_countdown`: once the countdown duration has elapsed,
construct a fresh snake, respawn the food, reset the tick timer and enter
Playing. -/
def Game.update_countdown (g : Game) (f : Frame) : Game :=
  if g.countdown_duration_ms ≤ f.now - g.countdown_start_time then
    { g with snake := Snake.init g.initial_snake_length,
             food := f.newFood,
             last_move_time := f.now,
             app_state := GameState.Playing }
  else g

/-- Lines 356-359 of `Game::update_playing`: the else-if chain sampling the
held movement actions in the order up, down, left, right. -/
def Game.sample_movement (g : Game) (f : Frame) : Game :=
  if is_action_down f g.key_bindings.up then
    { g with snake := g.snake.set_direction Direction.Up }
  else if is_action_down f g.key_bindings.down then
    { g with snake := g.snake.set_direction Direction.Down }
  else if is_action_down f g.key_bindings.left then
    { g with snake := g.snake.set_direction Direction.Left }
  else if is_action_down f g.key_bindings.right then
    { g with snake := g.snake.set_direction Direction.Right }
  else g

/-- Lines 366-371 of `Game::update_playing`: the wrap correction of the
post-advance head, returning the corrected cell and whether any branch
fired. -/
def wrap_head (p : Point) : Point × Bool :=
  let xw : Int × Bool :=
    if p.x < 0 then (GRID_WIDTH - 1, true)
    else if GRID_WIDTH ≤ p.x then (0, true)
    else (p.x, false)
  let yw : Int × Bool :=
    if p.y < 0 then (GRID_HEIGHT - 1, true)
    else if GRID_HEIGHT ≤ p.y then (0, true)
    else (p.y, false)
  ({ x := xw.1, y := yw.1 }, xw.2 || yw.2)

/-- Lines 375-378 of `Game::update_playing`: after boundary handling, check
self-collision (fatal), then food consumption (grow and respawn).  `head`
is the local head variable at that point (wrap-corrected when wrapping is
on). -/
def Game.after_boundary (g : Game) (head : Point) (f : Frame) : Game :=
  if g.snake.has_self_collision then g.game_over
  else if head.x = g.food.x ∧ head.y = g.food.y then
    { g with snake := g.snake.grow, food := f.newFood }
  else g

/-- Lines 362-378 of `Game::update_playing`: the body of the tick-gate
branch — advance the snake, stamp the tick time, then apply the boundary
policy (wrap correction, or fatal out-of-range when wrapping is off) and
the post-boundary checks. -/
def Game.run_tick (g : Game) (f : Frame) : Game :=
  let snake1 := g.snake.update
  let g1 := { g with snake := snake1, last_move_time := f.now }
  let head := snake1.get_head
  if g.wrapping_enabled then
    let hw := wrap_head head
    let g2 := if hw.2 then { g1 with snake := g1.snake.set_head hw.1 } else g1
    g2.after_boundary hw.1 f
  else
    if head.x < 0 ∨ GRID_WIDTH ≤ head.x ∨ head.y < 0 ∨ GRID_HEIGHT ≤ head.y then
      g1.game_over
    else
      g1.after_boundary head f

/-- `Game::update_playing`: a fresh pause press transitions to Pause and
returns at once; otherwise movement input is sampled (every frame), and the
tick body runs only when the tick interval has elapsed since the last
executed tick. -/
def Game.update_playing (g : Game) (f : Frame) : Game :=
  if is_action_pressed f g.key_bindings.pause then
    { g with app_state := GameState.Pause }
  else
    let g1 := g.sample_movement f
    if g1.tick_rate_ms ≤ f.now - g1.last_move_time then g1.run_tick f else g1

/-- `Game::update_pause`: mouse activation of the four buttons, then the
resume keybind (checked after the mouse handling, against the same
bindings). -/
def Game.update_pause (g : Game) (f : Frame) : Game :=
  let g1 :=
    if f.mousePressed then
      if f.hitResume then { g with app_state := GameState.Playing }
      else if f.hitSettings then
        { g with previous_state := GameState.Pause, app_state := GameState.Settings }
      else if f.hitRestart then { g with app_state := GameState.ConfirmRestart }
      else if f.hitMainMenu then { g with app_state := GameState.ConfirmMainMenu }
      else g
    else g
  if is_action_pressed f g.key_bindings.resume then
    { g1 with app_state := GameState.Playing }
  else g1

/-- `Game::update_confirm_restart`: Yes rebuilds the session and enters
Playing, No returns to Pause. -/
def Game.update_confirm_restart (g : Game) (f : Frame) : Game :=
  if f.mousePressed then
    if f.hitYes then
      { g with snake := Snake.init g.initial_snake_length,
               food := f.newFood,
               last_move_time := f.now,
               app_state := GameState.Playing }
    else if f.hitNo then { g with app_state := GameState.Pause }
    else g
  else g

/-- `Game::update_confirm_main_menu`. -/
def Game.update_confirm_main_menu (g : Game) (f : Frame) : Game :=
  if f.mousePressed then
    if f.hitYes then { g with app_state := GameState.StartMenu }
    else if f.hitNo then { g with app_state := GameState.Pause }
    else g
  else g

/-- `Game::update_game_over`: any click returns to the start menu. -/
def Game.update_game_over (g : Game) (f : Frame) : Game :=
  if f.mousePressed then { g with app_state := GameState.StartMenu } else g

/-- `Game::update`: the per-state dispatch. -/
def Game.update (g : Game) (f : Frame) : Game :=
  match g.app_state with
  | GameState.StartMenu => g.update_start_menu f
  | GameState.Settings => g.update_settings f
  | GameState.Keybinds => g.update_keybinds f
  | GameState.Countdown => g.update_countdown f
  | GameState.Playing => g.update_playing f
  | GameState.Pause => g.update_pause f
  | GameState.ConfirmRestart => g.update_confirm_restart f
  | GameState.ConfirmMainMenu => g.update_confirm_main_menu f
  | GameState.GameOver => g.update_game_over f

/-! Concrete states and frames used to exercise the definitions. -/

/-- A frame with no input at all, read at t = 250 ms. -/
def frameQuiet : Frame :=
  { now := 250, keyDown := fun _ => false, keyPressed := fun _ => false,
    pressedKey := 0, mousePressed := false, mouseDown := false,
    hitPlay := false, hitSettings := false, hitQuit := false,
    hitLengthSlider := false, hitTickSlider := false, hitWrapBox := false,
    hitKeybinds := false, hitBack := false, lengthSliderValue := 0,
    tickSliderValue := 0, keybindRow := -1, hitResume := false,
    hitRestart := false, hitMainMenu := false, hitYes := false,
    hitNo := false, newFood := { x := 7, y := 8 } }

/-- A frame at t = 50 ms (before the first 100 ms tick interval has
elapsed) with an up-movement key held. -/
def frameUpHeld : Frame :=
  { frameQuiet with now := 50, keyDown := fun k => k == KEY_UP }

/-- A frame with the default pause key freshly pressed, read at t = 250 ms
(after the tick interval has elapsed). -/
def framePausePress : Frame :=
  { frameQuiet with keyPressed := fun k => k == KEY_ESCAPE }

/-- A frame with a click on the Resume button of the pause menu. -/
def frameResumeClick : Frame :=
  { frameQuiet with mousePressed := true, hitResume := true }

/-- A freshly initialized game moved into the Playing state. -/
def gamePlaying : Game :=
  { Game.init 0 { x := 5, y := 5 } with app_state := GameState.Playing }

/-- A freshly initialized game moved into the Pause state. -/
def gamePaused : Game :=
  { Game.init 0 { x := 5, y := 5 } with app_state := GameState.Pause }

/-- A playing game whose single-segment snake sits on the right edge,
heading right (wrap-around on, the constructor default). -/
def gameEdge : Game :=
  { gamePlaying with
      snake := { segments := [{ x := 39, y := 15 }],
                 current_direction := Direction.Right,
                 grow_snake := false } }

/-- The same edge position with wrap-around disabled. -/
def gameEdgeNoWrap : Game :=
  { gameEdge with wrapping_enabled := false }

/-- A snake whose head cell reappears at index 2. -/
def snakeOverlap : Snake :=
  { segments := [{ x := 2, y := 2 }, { x := 3, y := 2 }, { x := 2, y := 2 }],
    current_direction := Direction.Right,
    grow_snake := false }

/-! Projection lemmas for the snake operations. -/

@[simp]
theorem Snake.set_direction_segments (s : Snake) (d : Direction) :
    (s.set_direction d).segments = s.segments := by
  unfold Snake.set_direction; split <;> rfl

@[simp]
theorem Snake.set_direction_grow (s : Snake) (d : Direction) :
    (s.set_direction d).grow_snake = s.grow_snake := by
  unfold Snake.set_direction; split <;> rfl

@[simp]
theorem Snake.update_direction (s : Snake) :
    s.update.current_direction = s.current_direction := by
  unfold Snake.update; dsimp only; split <;> rfl

@[simp]
theorem Snake.set_head_direction (s : Snake) (p : Point) :
    (s.set_head p).current_direction = s.current_direction := rfl

@[simp]
theorem Snake.set_head_grow (s : Snake) (p : Point) :
    (s.set_head p).grow_snake = s.grow_snake := rfl

@[simp]
theorem Snake.set_head_length (s : Snake) (p : Point) :
    (s.set_head p).segments.length = s.segments.length := by
  unfold Snake.set_head; exact List.length_set ..

@[simp]
theorem Snake.grow_segments (s : Snake) : s.grow.segments = s.segments := rfl

@[simp]
theorem Snake.grow_direction (s : Snake) :
    s.grow.current_direction = s.current_direction := rfl

theorem Snake.update_length (s : Snake) :
    s.update.segments.length =
      if s.grow_snake then s.segments.length + 1 else s.segments.length := by
  unfold Snake.update
  dsimp only
  cases hg : s.grow_snake <;> simp [hg, List.length_dropLast]

/-! Projection lemmas for `Game.game_over`. -/

@[simp]
theorem Game.game_over_snake (g : Game) : g.game_over.snake = g.snake := rfl

@[simp]
theorem Game.game_over_food (g : Game) : g.game_over.food = g.food := rfl

@[simp]
theorem Game.game_over_last (g : Game) :
    g.game_over.last_move_time = g.last_move_time := rfl

@[simp]
theorem Game.game_over_app (g : Game) :
    g.game_over.app_state = GameState.GameOver := rfl

@[simp]
theorem Game.game_over_best (g : Game) :
    g.game_over.best_length = max g.best_length g.snake.get_length := rfl

/-! Projection lemmas for `Game.sample_movement`. -/

@[simp]
theorem Game.sample_movement_last (g : Game) (f : Frame) :
    (g.sample_movement f).last_move_time = g.last_move_time := by
  unfold Game.sample_movement; split_ifs <;> rfl

@[simp]
theorem Game.sample_movement_tick_rate (g : Game) (f : Frame) :
    (g.sample_movement f).tick_rate_ms = g.tick_rate_ms := by
  unfold Game.sample_movement; split_ifs <;> rfl

@[simp]
theorem Game.sample_movement_keys (g : Game) (f : Frame) :
    (g.sample_movement f).key_bindings = g.key_bindings := by
  unfold Game.sample_movement; split_ifs <;> rfl

@[simp]
theorem Game.sample_movement_wrap (g : Game) (f : Frame) :
    (g.sample_movement f).wrapping_enabled = g.wrapping_enabled := by
  unfold Game.sample_movement; split_ifs <;> rfl

@[simp]
theorem Game.sample_movement_food (g : Game) (f : Frame) :
    (g.sample_movement f).food = g.food := by
  unfold Game.sample_movement; split_ifs <;> rfl

@[simp]
theorem Game.sample_movement_best (g : Game) (f : Frame) :
    (g.sample_movement f).best_length = g.best_length := by
  unfold Game.sample_movement; split_ifs <;> rfl

@[simp]
theorem Game.sample_movement_app (g : Game) (f : Frame) :
    (g.sample_movement f).app_state = g.app_state := by
  unfold Game.sample_movement; split_ifs <;> rfl

@[simp]
theorem Game.sample_movement_prev (g : Game) (f : Frame) :
    (g.sample_movement f).previous_state = g.previous_state := by
  unfold Game.sample_movement; split_ifs <;> rfl

@[simp]
theorem Game.sample_movement_init_length (g : Game) (f : Frame) :
    (g.sample_movement f).initial_snake_length = g.initial_snake_length := by
  unfold Game.sample_movement; split_ifs <;> rfl

@[simp]
theorem Game.sample_movement_cd_duration (g : Game) (f : Frame) :
    (g.sample_movement f).countdown_duration_ms = g.countdown_duration_ms := by
  unfold Game.sample_movement; split_ifs <;> rfl

@[simp]
theorem Game.sample_movement_cd_start (g : Game) (f : Frame) :
    (g.sample_movement f).countdown_start_time = g.countdown_start_time := by
  unfold Game.sample_movement; split_ifs <;> rfl

@[simp]
theorem Game.sample_movement_edit (g : Game) (f : Frame) :
    (g.sample_movement f).current_edit_action = g.current_edit_action := by
  unfold Game.sample_movement; split_ifs <;> rfl

@[simp]
theorem Game.sample_movement_segments (g : Game) (f : Frame) :
    (g.sample_movement f).snake.segments = g.snake.segments := by
  unfold Game.sample_movement; split_ifs <;> simp

@[simp]
theorem Game.sample_movement_grow (g : Game) (f : Frame) :
    (g.sample_movement f).snake.grow_snake = g.snake.grow_snake := by
  unfold Game.sample_movement; split_ifs <;> simp

@[simp]
theorem Game.sample_movement_head (g : Game) (f : Frame) :
    (g.sample_movement f).snake.get_head = g.snake.get_head := by
  unfold Snake.get_head; rw [Game.sample_movement_segments]

/-! Projection lemmas for `Game.after_boundary` and `Game.run_tick`. -/

@[simp]
theorem Game.after_boundary_last (g : Game) (p : Point) (f : Frame) :
    (g.after_boundary p f).last_move_time = g.last_move_time := by
  unfold Game.after_boundary; split_ifs <;> rfl

@[simp]
theorem Game.after_boundary_segments (g : Game) (p : Point) (f : Frame) :
    (g.after_boundary p f).snake.segments = g.snake.segments := by
  unfold Game.after_boundary; split_ifs <;> simp

@[simp]
theorem Game.after_boundary_direction (g : Game) (p : Point) (f : Frame) :
    (g.after_boundary p f).snake.current_direction = g.snake.current_direction := by
  unfold Game.after_boundary; split_ifs <;> simp

theorem Game.run_tick_last (g : Game) (f : Frame) :
    (g.run_tick f).last_move_time = f.now := by
  unfold Game.run_tick
  dsimp only
  split_ifs <;> simp

theorem Game.run_tick_direction (g : Game) (f : Frame) :
    (g.run_tick f).snake.current_direction = g.snake.current_direction := by
  unfold Game.run_tick
  dsimp only
  split_ifs <;> simp

theorem Game.run_tick_length (g : Game) (f : Frame) :
    (g.run_tick f).snake.segments.length =
      if g.snake.grow_snake then g.snake.segments.length + 1
      else g.snake.segments.length := by
  unfold Game.run_tick
  dsimp only
  split_ifs <;> simp [Snake.update_length] <;> simp_all

/-- `Game::update_playing` unfolded one step: the pause check, then the
tick gate read off the (unchanged) timing fields. -/
theorem Game.update_playing_eq (g : Game) (f : Frame) :
    g.update_playing f =
      if is_action_pressed f g.key_bindings.pause then
        { g with app_state := GameState.Pause }
      else if g.tick_rate_ms ≤ f.now - g.last_move_time then
        (g.sample_movement f).run_tick f
      else g.sample_movement f := by
  unfold Game.update_playing
  simp only [Game.sample_movement_tick_rate, Game.sample_movement_last]

/-- Membership in the tail of a list is exactly occurrence at a positive
index. -/
theorem mem_tail_iff_get (l : List Point) (a : Point) :
    a ∈ l.tail ↔
      ∃ i : Nat, 0 < i ∧ ∃ hi : i < l.length, l.get ⟨i, hi⟩ = a := by
  cases l with
  | nil => simp
  | cons hd t =>
    simp only [List.tail_cons, List.length_cons]
    constructor
    · intro hmem
      obtain ⟨⟨j, hj⟩, hget⟩ := List.mem_iff_get.mp hmem
      exact ⟨j + 1, Nat.succ_pos j, Nat.succ_lt_succ hj, hget⟩
    · rintro ⟨i, hpos, hi, hget⟩
      cases i with
      | zero => omega
      | succ j =>
        have hj : j < t.length := Nat.lt_of_succ_lt_succ hi
        have hg : t.get ⟨j, hj⟩ = a := hget
        exact hg ▸ t.get_mem j hj

/-- The collision loop succeeds exactly when the head cell occurs in the
tail of the segment list. -/
theorem self_collision_iff_mem (s : Snake) :
    s.has_self_collision = true ↔ s.get_head ∈ s.segments.tail := by
  unfold Snake.has_self_collision
  simp only [List.any_eq_true, Bool.and_eq_true, beq_iff_eq]
  constructor
  · rintro ⟨p, hp, hx, hy⟩
    have hph : p = s.get_head := Point.ext hx hy
    rwa [hph] at hp
  · intro h
    exact ⟨s.get_head, h, rfl, rfl⟩

/-- C4: for every snake state (with at least one segment, the standing
invariant), `Snake::update` prepends a new head obtained from the old head
by one grid-unit step along the current heading; when the pending-growth
flag is clear the tail is removed and the length is unchanged, when it is
set the tail is kept, the length grows by exactly one, and the flag is
cleared; the remaining segment positions and the heading are untouched. -/
theorem advance_spec (s : Snake) (h : s.segments ≠ []) :
    s.update.segments =
      s.current_direction.apply s.get_head ::
        (if s.grow_snake then s.segments else s.segments.dropLast) ∧
    s.update.get_head = s.current_direction.apply s.get_head ∧
    s.update.get_length =
      (if s.grow_snake then s.get_length + 1 else s.get_length) ∧
    s.update.grow_snake = false ∧
    s.update.current_direction = s.current_direction := by
  obtain ⟨segs, dir, gr⟩ := s
  cases segs with
  | nil => exact absurd rfl h
  | cons a t =>
    cases gr <;>
      simp [Snake.update, Snake.get_head, Snake.get_length]

/-- Witness for C4 at the default fresh snake of length 3. -/
theorem advance_witness :
    (Snake.init 3).update.segments =
      [{ x := 21, y := 15 }, { x := 20, y := 15 }, { x := 19, y := 15 }] ∧
    (Snake.init 3).update.get_length = (Snake.init 3).get_length ∧
    (Snake.init 3).update.grow_snake = false := by
  have h := advance_spec (Snake.init 3) (by decide)
  refine ⟨?_, ?_, h.2.2.2.1⟩
  · rw [h.1]; decide
  · rw [h.2.2.1]; decide

/-- C6: `Snake::set_direction` adopts the requested direction unless it is
the exact opposite of the current heading (Up↔Down, Left↔Right), in which
case the call leaves the whole snake state unchanged; in the non-opposite
case only the heading field changes. -/
theorem set_direction_spec (s : Snake) (d : Direction) :
    s.set_direction d =
      if d = s.current_direction.opposite then s
      else { s with current_direction := d } := by
  obtain ⟨segs, dir, gr⟩ := s
  cases dir <;> cases d <;>
    simp [Snake.set_direction, Direction.opposite]

/-- C8: `Snake::has_self_collision` is true exactly when the head cell
(index 0) recurs at some strictly positive index, and a freshly
constructed snake of any initial length at least 1 reports no
self-collision. -/
theorem self_collision_spec :
    (∀ s : Snake, s.has_self_collision = true ↔
      ∃ i : Nat, 0 < i ∧ ∃ hi : i < s.segments.length,
        s.segments.get ⟨i, hi⟩ = s.get_head) ∧
    (∀ n : Int, 1 ≤ n → (Snake.init n).has_self_collision = false) := by
  constructor
  · intro s
    rw [self_collision_iff_mem, mem_tail_iff_get]
  · intro n hn
    obtain ⟨k, hk⟩ : ∃ k, n.toNat = k + 1 := ⟨n.toNat - 1, by omega⟩
    unfold Snake.init Snake.has_self_collision Snake.get_head
    dsimp only
    rw [hk, List.range_succ_eq_map]
    simp only [List.map_cons, List.tail_cons, List.headD_cons, List.map_map]
    rw [List.any_eq_false]
    intro p hp
    simp only [List.mem_map, List.mem_range, Function.comp] at hp
    obtain ⟨j, _, rfl⟩ := hp
    simp only [Nat.succ_eq_add_one, Bool.and_eq_true, beq_iff_eq, not_and]
    intro hx
    exfalso
    simp only [GRID_WIDTH] at hx
    omega

/-- Witness for C8: the fresh snake at length 3 is collision-free, and a
snake whose head recurs at index 2 is caught. -/
theorem self_collision_witness :
    (Snake.init 3).has_self_collision = false ∧
    snakeOverlap.has_self_collision = true := by
  refine ⟨self_collision_spec.2 3 (by decide), ?_⟩
  exact (self_collision_spec.1 snakeOverlap).mpr ⟨2, by decide, by decide, by decide⟩

/-- C1: on a Playing-state frame where the pause action is not pressed, the
tick body runs exactly when `now - last_move_time ≥ tick_rate_ms`; when it
runs, the whole frame performs the single tick body (so at most one
`Snake::update`, bounding the length change by one — never
`floor(elapsed/interval)` ticks) and the last-tick timestamp becomes `now`
itself rather than advancing by the interval; when it does not run, the
timestamp and the segments are untouched. -/
theorem tick_gating (g : Game) (f : Frame)
    (hp : is_action_pressed f g.key_bindings.pause = false) :
    (g.tick_rate_ms ≤ f.now - g.last_move_time →
        g.update_playing f = (g.sample_movement f).run_tick f ∧
        (g.update_playing f).last_move_time = f.now ∧
        (g.update_playing f).snake.get_length ≤ g.snake.get_length + 1) ∧
    (f.now - g.last_move_time < g.tick_rate_ms →
        g.update_playing f = g.sample_movement f ∧
        (g.update_playing f).last_move_time = g.last_move_time ∧
        (g.update_playing f).snake.segments = g.snake.segments) := by
  rw [Game.update_playing_eq]
  simp only [hp, Bool.false_eq_true, if_false]
  constructor
  · intro h
    rw [if_pos h]
    refine ⟨rfl, Game.run_tick_last .., ?_⟩
    simp only [Snake.get_length]
    rw [Game.run_tick_length, Game.sample_movement_grow,
        Game.sample_movement_segments]
    split_ifs <;> push_cast <;> omega
  · intro h
    rw [if_neg (not_le.mpr h)]
    exact ⟨rfl, Game.sample_movement_last .., Game.sample_movement_segments ..⟩

/-- Witness for C1: a quiet frame at t = 250 ms against a fresh Playing
game (tick interval 100 ms, last tick at 0) runs exactly one tick and
stamps the timestamp to 250. -/
theorem tick_gating_witness :
    gamePlaying.update_playing frameQuiet =
      (gamePlaying.sample_movement frameQuiet).run_tick frameQuiet ∧
    (gamePlaying.update_playing frameQuiet).last_move_time = frameQuiet.now ∧
    (gamePlaying.update_playing frameQuiet).snake.get_length ≤
      gamePlaying.snake.get_length + 1 :=
  (tick_gating gamePlaying frameQuiet (by decide)).1 (by decide)

/-- C2 counterexample: the claim places movement-input sampling inside the
simulation tick, so on a frame where no tick executes no movement action
may take effect; but on a concrete frame 50 ms into a 100 ms interval
(no tick: the timestamp and segments are unchanged) a held up key still
changes the heading from Right to Up. -/
theorem sampling_outside_tick :
    frameUpHeld.now - gamePlaying.last_move_time < gamePlaying.tick_rate_ms ∧
    (gamePlaying.update_playing frameUpHeld).last_move_time =
      gamePlaying.last_move_time ∧
    (gamePlaying.update_playing frameUpHeld).snake.segments =
      gamePlaying.snake.segments ∧
    gamePlaying.snake.current_direction = Direction.Right ∧
    (gamePlaying.update_playing frameUpHeld).snake.current_direction =
      Direction.Up := by decide

/-- C2 (amended): movement input is sampled on every Playing-state frame
in which the pause action is not pressed — before the tick gate, not as
step 1 of the gated tick — so at most one of the four movement actions
takes effect per frame, tested in the fixed priority order up, down, left,
right with the first held action winning, and the resulting heading is the
one `Snake::set_direction` (with its reversal guard) produces; on a frame
with no tick the segments and the timestamp stay untouched. -/
theorem movement_sampling (g : Game) (f : Frame)
    (hp : is_action_pressed f g.key_bindings.pause = false) :
    (is_action_down f g.key_bindings.up = true →
        (g.update_playing f).snake.current_direction =
          (g.snake.set_direction Direction.Up).current_direction) ∧
    (is_action_down f g.key_bindings.up = false →
     is_action_down f g.key_bindings.down = true →
        (g.update_playing f).snake.current_direction =
          (g.snake.set_direction Direction.Down).current_direction) ∧
    (is_action_down f g.key_bindings.up = false →
     is_action_down f g.key_bindings.down = false →
     is_action_down f g.key_bindings.left = true →
        (g.update_playing f).snake.current_direction =
          (g.snake.set_direction Direction.Left).current_direction) ∧
    (is_action_down f g.key_bindings.up = false →
     is_action_down f g.key_bindings.down = false →
     is_action_down f g.key_bindings.left = false →
     is_action_down f g.key_bindings.right = true →
        (g.update_playing f).snake.current_direction =
          (g.snake.set_direction Direction.Right).current_direction) ∧
    (is_action_down f g.key_bindings.up = false →
     is_action_down f g.key_bindings.down = false →
     is_action_down f g.key_bindings.left = false →
     is_action_down f g.key_bindings.right = false →
        (g.update_playing f).snake.current_direction =
          g.snake.current_direction) ∧
    (f.now - g.last_move_time < g.tick_rate_ms →
        (g.update_playing f).snake.segments = g.snake.segments ∧
        (g.update_playing f).last_move_time = g.last_move_time) := by
  rw [Game.update_playing_eq]
  simp only [hp, Bool.false_eq_true, if_false]
  have hdir :
      (if g.tick_rate_ms ≤ f.now - g.last_move_time then
          (g.sample_movement f).run_tick f
        else g.sample_movement f).snake.current_direction =
        (g.sample_movement f).snake.current_direction := by
    split_ifs with h
    · exact Game.run_tick_direction ..
    · rfl
  refine ⟨?_, ?_, ?_, ?_, ?_, ?_⟩
  · intro hu
    rw [hdir]
    simp [Game.sample_movement, hu]
  · intro hu hd
    rw [hdir]
    simp [Game.sample_movement, hu, hd]
  · intro hu hd hl
    rw [hdir]
    simp [Game.sample_movement, hu, hd, hl]
  · intro hu hd hl hr
    rw [hdir]
    simp [Game.sample_movement, hu, hd, hl, hr]
  · intro hu hd hl hr
    rw [hdir]
    simp [Game.sample_movement, hu, hd, hl, hr]
  · intro h
    rw [if_neg (not_le.mpr h)]
    exact ⟨Game.sample_movement_segments .., Game.sample_movement_last ..⟩

/-- Witness for the amended C2: with the up key held, the heading comes
out as `set_direction Up` dictates. -/
theorem movement_sampling_witness :
    (gamePlaying.update_playing frameUpHeld).snake.current_direction =
      (gamePlaying.snake.set_direction Direction.Up).current_direction :=
  (movement_sampling gamePlaying frameUpHeld (by decide)).1 (by decide)

/-- C9: resuming from Pause to Playing, whether through the Resume button
or the resume keybind, changes only the application-state field — in
particular `last_move_time` is not reset — and therefore a frame update
arriving right after the resume with the tick interval already elapsed
executes a simulation tick at once. -/
theorem resume_spec (g : Game) (f f2 : Frame)
    (h : (f.mousePressed = true ∧ f.hitResume = true) ∨
         (f.mousePressed = false ∧
          is_action_pressed f g.key_bindings.resume = true))
    (hp2 : is_action_pressed f2 g.key_bindings.pause = false)
    (ht2 : g.tick_rate_ms ≤ f2.now - g.last_move_time) :
    g.update_pause f = { g with app_state := GameState.Playing } ∧
    ((g.update_pause f).update_playing f2).last_move_time = f2.now := by
  have h1 : g.update_pause f = { g with app_state := GameState.Playing } := by
    unfold Game.update_pause
    rcases h with ⟨hm, hr⟩ | ⟨hm, hk⟩
    · simp only [hm, hr, if_true]
      split_ifs <;> rfl
    · simp only [hm, Bool.false_eq_true, if_false, hk, if_true]
  refine ⟨h1, ?_⟩
  rw [h1, Game.update_playing_eq]
  dsimp only
  simp only [hp2, Bool.false_eq_true, if_false]
  rw [if_pos ht2]
  exact Game.run_tick_last ..

/-- Witness for C9: clicking Resume on a paused fresh game changes only the
state field, and a quiet frame at t = 250 ms right after it ticks
immediately. -/
theorem resume_witness :
    gamePaused.update_pause frameResumeClick =
      { gamePaused with app_state := GameState.Playing } ∧
    ((gamePaused.update_pause frameResumeClick).update_playing
        frameQuiet).last_move_time = frameQuiet.now :=
  resume_spec gamePaused frameResumeClick frameQuiet (Or.inl ⟨rfl, rfl⟩)
    (by decide) (by decide)

/-- C10: on a Playing-state frame where the pause action is newly pressed,
the update transitions to Pause and returns before the tick gate: the
whole game state except the application-state field — snake, food and
last-tick timestamp included — is unchanged, regardless of how much time
has elapsed. -/
theorem pause_preempt (g : Game) (f : Frame)
    (hp : is_action_pressed f g.key_bindings.pause = true) :
    g.update_playing f = { g with app_state := GameState.Pause } := by
  unfold Game.update_playing
  simp only [hp, if_true]

/-- Witness for C10: the default pause key pressed at t = 250 ms (tick
interval long elapsed) still runs no tick. -/
theorem pause_preempt_witness :
    gamePlaying.tick_rate_ms ≤
      framePausePress.now - gamePlaying.last_move_time ∧
    gamePlaying.update_playing framePausePress =
      { gamePlaying with app_state := GameState.Pause } :=
  ⟨by decide, pause_preempt gamePlaying framePausePress (by decide)⟩

/-- The segment list `Snake::update` produces on a non-empty snake: the
stepped head in front of the old list, with the last cell dropped when no
growth is pending. -/
theorem Snake.update_segments_eq (s : Snake) (h : s.segments ≠ []) :
    s.update.segments =
      s.current_direction.apply s.get_head ::
        (if s.grow_snake then s.segments else s.segments.dropLast) := by
  obtain ⟨segs, dir, gr⟩ := s
  cases segs with
  | nil => exact absurd rfl h
  | cons a t => cases gr <;> simp [Snake.update, Snake.get_head]

/-- When neither wrap branch fires, the head cell is returned as is. -/
theorem wrap_head_id (p : Point) (h : (wrap_head p).2 = false) :
    (wrap_head p).1 = p := by
  unfold wrap_head at *
  dsimp only at *
  split_ifs at * <;> simp_all

/-- On a head that is at most one step out of range (the only shape a
single advance can produce from an in-range cell), the if/else wrap
correction agrees with reduction modulo the grid extents. -/
theorem wrap_head_eq_mod (p : Point)
    (hx1 : -1 ≤ p.x) (hx2 : p.x ≤ GRID_WIDTH)
    (hy1 : -1 ≤ p.y) (hy2 : p.y ≤ GRID_HEIGHT) :
    (wrap_head p).1 =
      { x := p.x % GRID_WIDTH, y := p.y % GRID_HEIGHT } := by
  unfold wrap_head
  dsimp only
  simp only [GRID_WIDTH, GRID_HEIGHT] at *
  split_ifs <;> refine Point.ext ?_ ?_ <;> dsimp only <;> omega

/-- The segment list a wrapping tick leaves behind: the wrap-corrected
advanced head in front of the advanced body. -/
theorem Game.run_tick_wrap (G : Game) (f : Frame)
    (hw : G.wrapping_enabled = true)
    (hne : G.snake.segments ≠ []) :
    (G.run_tick f).snake.segments =
      (wrap_head G.snake.update.get_head).1 :: G.snake.update.segments.tail := by
  have h1 := Snake.update_segments_eq G.snake hne
  unfold Game.run_tick
  dsimp only
  rw [if_pos hw]
  rw [Game.after_boundary_segments]
  by_cases hf : (wrap_head G.snake.update.get_head).2 = true
  · rw [if_pos hf]
    dsimp only
    unfold Snake.set_head
    dsimp only
    rw [h1]
    simp
  · rw [if_neg hf]
    dsimp only
    have hid : (wrap_head G.snake.update.get_head).1 = G.snake.update.get_head :=
      wrap_head_id _ (by simpa using hf)
    rw [hid]
    conv_rhs => rw [h1]
    unfold Snake.get_head
    rw [h1]
    simp

/-- C3: with wrap-around enabled, a simulation tick leaves the snake with
the advanced head reduced modulo the grid extents in front of the advanced
body (the correction touches the head cell only, as `set_head` does); the
advanced head can be out of range on at most one axis; and the resulting
head is in range on both axes.  The pre-tick head is assumed in range —
the invariant every reachable Playing state satisfies. -/
theorem wrap_policy (g : Game) (f : Frame)
    (hp : is_action_pressed f g.key_bindings.pause = false)
    (hw : g.wrapping_enabled = true)
    (ht : g.tick_rate_ms ≤ f.now - g.last_move_time)
    (hne : g.snake.segments ≠ [])
    (hhx : 0 ≤ g.snake.get_head.x ∧ g.snake.get_head.x < GRID_WIDTH)
    (hhy : 0 ≤ g.snake.get_head.y ∧ g.snake.get_head.y < GRID_HEIGHT) :
    (g.update_playing f).snake.segments =
      { x := (g.sample_movement f).snake.update.get_head.x % GRID_WIDTH,
        y := (g.sample_movement f).snake.update.get_head.y % GRID_HEIGHT } ::
        (g.sample_movement f).snake.update.segments.tail ∧
    ¬(((g.sample_movement f).snake.update.get_head.x < 0 ∨
       GRID_WIDTH ≤ (g.sample_movement f).snake.update.get_head.x) ∧
      ((g.sample_movement f).snake.update.get_head.y < 0 ∨
       GRID_HEIGHT ≤ (g.sample_movement f).snake.update.get_head.y)) ∧
    0 ≤ (g.update_playing f).snake.get_head.x ∧
    (g.update_playing f).snake.get_head.x < GRID_WIDTH ∧
    0 ≤ (g.update_playing f).snake.get_head.y ∧
    (g.update_playing f).snake.get_head.y < GRID_HEIGHT := by
  have hs1 : (g.sample_movement f).snake.segments = g.snake.segments :=
    Game.sample_movement_segments ..
  have hne1 : (g.sample_movement f).snake.segments ≠ [] := by
    rw [hs1]; exact hne
  have hadvh : (g.sample_movement f).snake.update.get_head =
      (g.sample_movement f).snake.current_direction.apply
        (g.sample_movement f).snake.get_head := by
    unfold Snake.get_head
    rw [Snake.update_segments_eq _ hne1]
    simp [Snake.get_head]
  have hb : -1 ≤ (g.sample_movement f).snake.update.get_head.x ∧
      (g.sample_movement f).snake.update.get_head.x ≤ GRID_WIDTH ∧
      -1 ≤ (g.sample_movement f).snake.update.get_head.y ∧
      (g.sample_movement f).snake.update.get_head.y ≤ GRID_HEIGHT ∧
      ¬(((g.sample_movement f).snake.update.get_head.x < 0 ∨
         GRID_WIDTH ≤ (g.sample_movement f).snake.update.get_head.x) ∧
        ((g.sample_movement f).snake.update.get_head.y < 0 ∨
         GRID_HEIGHT ≤ (g.sample_movement f).snake.update.get_head.y)) := by
    rw [hadvh, Game.sample_movement_head]
    obtain ⟨hx1, hx2⟩ := hhx
    obtain ⟨hy1, hy2⟩ := hhy
    cases (g.sample_movement f).snake.current_direction <;>
      simp [Direction.apply] <;> omega
  have hseg := Game.run_tick_wrap (g.sample_movement f) f
    (by rw [Game.sample_movement_wrap]; exact hw) hne1
  have hwmod := wrap_head_eq_mod _ hb.1 hb.2.1 hb.2.2.1 hb.2.2.2.1
  rw [Game.update_playing_eq]
  simp only [hp, Bool.false_eq_true, if_false]
  rw [if_pos ht]
  have hhd : ((g.sample_movement f).run_tick f).snake.get_head =
      ({ x := (g.sample_movement f).snake.update.get_head.x % GRID_WIDTH,
         y := (g.sample_movement f).snake.update.get_head.y % GRID_HEIGHT } :
        Point) := by
    have h2 : ((g.sample_movement f).run_tick f).snake.get_head =
        ((g.sample_movement f).run_tick f).snake.segments.headD
          { x := 0, y := 0 } := rfl
    rw [h2, hseg, hwmod, List.headD_cons]
  refine ⟨by rw [hseg, hwmod], hb.2.2.2.2, ?_, ?_, ?_, ?_⟩ <;>
    rw [hhd] <;> dsimp only <;> simp only [GRID_WIDTH, GRID_HEIGHT] <;> omega

/-- Witness for C3: the single-cell snake at column 39 heading right wraps
to column 0 on the next tick. -/
theorem wrap_policy_witness :
    (gameEdge.update_playing frameQuiet).snake.segments =
      { x := (gameEdge.sample_movement frameQuiet).snake.update.get_head.x %
              GRID_WIDTH,
        y := (gameEdge.sample_movement frameQuiet).snake.update.get_head.y %
              GRID_HEIGHT } ::
        (gameEdge.sample_movement frameQuiet).snake.update.segments.tail ∧
    (gameEdge.update_playing frameQuiet).snake.segments =
      [{ x := 0, y := 15 }] ∧
    0 ≤ (gameEdge.update_playing frameQuiet).snake.get_head.x ∧
    (gameEdge.update_playing frameQuiet).snake.get_head.x < GRID_WIDTH := by
  have h := wrap_policy gameEdge frameQuiet (by decide) (by decide) (by decide)
    (by decide) (by decide) (by decide)
  exact ⟨h.1, by rw [h.1]; decide, h.2.2.1, h.2.2.2.1⟩

/-- C5: with wrap-around disabled, a tick whose advanced head has any
coordinate outside the grid deterministically ends in GameOver, with the
final length folded into the best length; the snake is exactly the
advanced snake — no further mutation (no self-collision handling, no
growth) — and every other field, the food included, is untouched. -/
theorem boundary_fatal (g : Game) (f : Frame)
    (hp : is_action_pressed f g.key_bindings.pause = false)
    (hw : g.wrapping_enabled = false)
    (ht : g.tick_rate_ms ≤ f.now - g.last_move_time)
    (hout : (g.sample_movement f).snake.update.get_head.x < 0 ∨
            GRID_WIDTH ≤ (g.sample_movement f).snake.update.get_head.x ∨
            (g.sample_movement f).snake.update.get_head.y < 0 ∨
            GRID_HEIGHT ≤ (g.sample_movement f).snake.update.get_head.y) :
    g.update_playing f =
      { g with
          snake := (g.sample_movement f).snake.update,
          last_move_time := f.now,
          best_length :=
            max g.best_length (g.sample_movement f).snake.update.get_length,
          app_state := GameState.GameOver } := by
  rw [Game.update_playing_eq]
  simp only [hp, Bool.false_eq_true, if_false]
  rw [if_pos ht]
  unfold Game.run_tick
  dsimp only
  simp only [Game.sample_movement_wrap, hw, Bool.false_eq_true, if_false]
  rw [if_pos hout]
  unfold Game.game_over
  refine Game.ext ?_ ?_ ?_ ?_ ?_ ?_ ?_ ?_ ?_ ?_ ?_ ?_ ?_ <;> simp

/-- Witness for C5: the single-cell snake at column 39 heading right with
wrapping off dies on the next tick and records best length 1. -/
theorem boundary_fatal_witness :
    (gameEdgeNoWrap.update_playing frameQuiet).app_state =
      GameState.GameOver ∧
    (gameEdgeNoWrap.update_playing frameQuiet).best_length = 1 ∧
    (gameEdgeNoWrap.update_playing frameQuiet).food = gameEdgeNoWrap.food ∧
    gameEdgeNoWrap.update_playing frameQuiet =
      { gameEdgeNoWrap with
          snake := (gameEdgeNoWrap.sample_movement frameQuiet).snake.update,
          last_move_time := frameQuiet.now,
          best_length :=
            max gameEdgeNoWrap.best_length
              (gameEdgeNoWrap.sample_movement frameQuiet).snake.update.get_length,
          app_state := GameState.GameOver } := by
  have h := boundary_fatal gameEdgeNoWrap frameQuiet (by decide) (by decide)
    (by decide) (by decide)
  exact ⟨by rw [h], by rw [h]; decide, by rw [h], h⟩

/-! Best-length behaviour of each per-state update routine. -/

theorem Game.update_start_menu_best (g : Game) (f : Frame) :
    (g.update_start_menu f).best_length = g.best_length := by
  unfold Game.update_start_menu; split_ifs <;> rfl

theorem Game.update_settings_best (g : Game) (f : Frame) :
    (g.update_settings f).best_length = g.best_length := by
  unfold Game.update_settings; dsimp only; split_ifs <;> rfl

theorem Game.update_keybinds_best (g : Game) (f : Frame) :
    (g.update_keybinds f).best_length = g.best_length := by
  unfold Game.update_keybinds; dsimp only; split_ifs <;> rfl

theorem Game.update_countdown_best (g : Game) (f : Frame) :
    (g.update_countdown f).best_length = g.best_length := by
  unfold Game.update_countdown; split_ifs <;> rfl

theorem Game.update_pause_best (g : Game) (f : Frame) :
    (g.update_pause f).best_length = g.best_length := by
  unfold Game.update_pause; dsimp only; split_ifs <;> rfl

theorem Game.update_confirm_restart_best (g : Game) (f : Frame) :
    (g.update_confirm_restart f).best_length = g.best_length := by
  unfold Game.update_confirm_restart; split_ifs <;> rfl

theorem Game.update_confirm_main_menu_best (g : Game) (f : Frame) :
    (g.update_confirm_main_menu f).best_length = g.best_length := by
  unfold Game.update_confirm_main_menu; split_ifs <;> rfl

theorem Game.update_game_over_best (g : Game) (f : Frame) :
    (g.update_game_over f).best_length = g.best_length := by
  unfold Game.update_game_over; split_ifs <;> rfl

/-- A tick either leaves the best length and the state alone, or ends in
GameOver with the final length folded in by max. -/
theorem Game.run_tick_best_cases (g : Game) (f : Frame) :
    ((g.run_tick f).best_length = g.best_length ∧
      (g.run_tick f).app_state = g.app_state) ∨
    ((g.run_tick f).app_state = GameState.GameOver ∧
      (g.run_tick f).best_length =
        max g.best_length (g.run_tick f).snake.get_length) := by
  unfold Game.run_tick Game.after_boundary
  dsimp only
  split_ifs <;>
    first
      | (left; exact ⟨rfl, rfl⟩)
      | (right; exact ⟨rfl, rfl⟩)

/-- The Playing-state frame update either preserves the best length or
enters GameOver recording the max. -/
theorem Game.update_playing_best (g : Game) (f : Frame) :
    (g.update_playing f).best_length = g.best_length ∨
    ((g.update_playing f).app_state = GameState.GameOver ∧
      (g.update_playing f).best_length =
        max g.best_length (g.update_playing f).snake.get_length) := by
  rw [Game.update_playing_eq]
  split_ifs with h1 h2
  · left; rfl
  · rcases Game.run_tick_best_cases (g.sample_movement f) f with ⟨hb, _⟩ | ⟨ha, hb⟩
    · left; rw [hb, Game.sample_movement_best]
    · right; exact ⟨ha, by rw [hb, Game.sample_movement_best]⟩
  · left; exact Game.sample_movement_best ..

/-- C7: the best length starts at 0 in the constructor, never decreases
under any frame update (hence not across any sequence of frames, however
many sessions it spans), and changes value only on a frame that moves the
Playing state into GameOver, where it becomes the max of the old best and
the final snake length. -/
theorem best_length_spec :
    (∀ now0 food0, (Game.init now0 food0).best_length = 0) ∧
    (∀ (g : Game) (f : Frame), g.best_length ≤ (g.update f).best_length) ∧
    (∀ (g : Game) (f : Frame), (g.update f).best_length ≠ g.best_length →
        g.app_state = GameState.Playing ∧
        (g.update f).app_state = GameState.GameOver ∧
        (g.update f).best_length =
          max g.best_length (g.update f).snake.get_length) ∧
    (∀ (g : Game) (fs : List Frame),
        g.best_length ≤ (List.foldl Game.update g fs).best_length) := by
  have hcases : ∀ (g : Game) (f : Frame),
      (g.update f).best_length = g.best_length ∨
      (g.app_state = GameState.Playing ∧
        (g.update f).app_state = GameState.GameOver ∧
        (g.update f).best_length =
          max g.best_length (g.update f).snake.get_length) := by
    intro g f
    unfold Game.update
    cases hs : g.app_state <;> dsimp only
    case StartMenu => left; exact Game.update_start_menu_best ..
    case Settings => left; exact Game.update_settings_best ..
    case Keybinds => left; exact Game.update_keybinds_best ..
    case Countdown => left; exact Game.update_countdown_best ..
    case Playing =>
      rcases Game.update_playing_best g f with h | ⟨ha, hb⟩
      · left; exact h
      · right; exact ⟨rfl, ha, hb⟩
    case Pause => left; exact Game.update_pause_best ..
    case ConfirmRestart => left; exact Game.update_confirm_restart_best ..
    case ConfirmMainMenu => left; exact Game.update_confirm_main_menu_best ..
    case GameOver => left; exact Game.update_game_over_best ..
  have hmono : ∀ (g : Game) (f : Frame),
      g.best_length ≤ (g.update f).best_length := by
    intro g f
    rcases hcases g f with h | ⟨_, _, hb⟩
    · rw [h]
    · rw [hb]; exact le_max_left ..
  refine ⟨fun now0 food0 => rfl, hmono, ?_, ?_⟩
  · intro g f hne
    rcases hcases g f with h | hr
    · exact absurd h hne
    · exact hr
  · intro g fs
    induction fs generalizing g with
    | nil => exact le_refl _
    | cons f fs ih => exact le_trans (hmono g f) (ih (g.update f))

/-- Witness for C7: a fresh game starts at best 0; the edge game (best 0)
crashes into the wall on a quiet frame, entering GameOver with best
max 0 1 = 1; and best length is monotone over a two-frame run. -/
theorem best_length_witness :
    (Game.init 0 { x := 1, y := 1 }).best_length = 0 ∧
    gameEdgeNoWrap.app_state = GameState.Playing ∧
    (gameEdgeNoWrap.update frameQuiet).app_state = GameState.GameOver ∧
    (gameEdgeNoWrap.update frameQuiet).best_length =
      max gameEdgeNoWrap.best_length
        (gameEdgeNoWrap.update frameQuiet).snake.get_length ∧
    gameEdgeNoWrap.best_length ≤
      (List.foldl Game.update gameEdgeNoWrap
        [frameQuiet, frameQuiet]).best_length := by
  have h := best_length_spec.2.2.1 gameEdgeNoWrap frameQuiet (by decide)
  exact ⟨best_length_spec.1 0 { x := 1, y := 1 }, h.1, h.2.1, h.2.2,
    best_length_spec.2.2.2 gameEdgeNoWrap [frameQuiet, frameQuiet]⟩

end Snakey
